import Mathlib

/-!
Verification of the Stock-Reversal-Flow data pipeline: a shallow embedding of
`src/database.py` (SQLite persistence), `src/data_collector.py` (market-data
client, indicator engine, collection orchestrator) and `config/settings.py`.

Modelling conventions:
* SQLite `REAL` values are modelled as `ℚ`; a pandas `NaN` cell is `none` in an
  `Option ℚ` column (pandas comparisons with `NaN` yield `False`, which the
  `optLt` helper reproduces).
* `TEXT` datetimes are `String`s compared lexicographically, exactly as SQLite
  `ORDER BY` compares `TEXT` columns; the `%Y-%m-%d %H:%M:%S` format used by
  `fetch_daily_data` makes the lexicographic order the chronological one.
* Timestamps in `data_updates` are seconds as `Int`; SQLite's
  `datetime(x) < datetime('now', '-h hours')` becomes `x < now - h * 3600`.
* The HTTP layer is an oracle `String → HttpOutcome` giving each symbol's
  network outcome for the run.
-/

/-! ## config/settings.py -/

def RSI_PERIOD : Nat := 14

def SMA_PERIOD : Nat := 20

def OVERSOLD_THRESHOLD : ℚ := 30

def OVERBOUGHT_THRESHOLD : ℚ := 70

def MIN_DECLINE_PERCENT : ℚ := 10

def DECLINE_LOOKBACK_DAYS : Nat := 10

def WATCHLIST : List String :=
  ["AAPL", "MSFT", "GOOGL", "AMZN", "TSLA",
   "META", "NVDA", "JPM", "JNJ", "V",
   "PG", "UNH", "HD", "MA", "BAC",
   "DIS", "ADBE", "CRM", "NFLX", "PYPL"]

/-! ## Data model: one row of the `stock_data` table / collector DataFrame.

The raw bars built by `fetch_daily_data` carry only the first eight columns;
the derived columns (`rsi`, `sma_20`, `pct_change_5d`, `pct_change_10d`,
`is_oversold`) are absent (`none`) until `calculate_indicators` fills them.
`is_oversold` is stored by the code as the int cast of a boolean mask; we keep
the boolean. -/

structure Row where
  symbol : String
  datetime : String
  timeframe : String
  open_ : ℚ
  high : ℚ
  low : ℚ
  close : ℚ
  volume : Int
  rsi : Option ℚ := none
  sma_20 : Option ℚ := none
  pct_change_5d : Option ℚ := none
  pct_change_10d : Option ℚ := none
  is_oversold : Option Bool := none
deriving DecidableEq, Repr

instance : Inhabited Row :=
  ⟨{ symbol := "", datetime := "", timeframe := "", open_ := 0, high := 0,
     low := 0, close := 0, volume := 0 }⟩

/-! ## src/database.py -/

/-- The persistent state: the `stock_data` table (rows plus whether the table
still carries the `(symbol, datetime, timeframe)` PRIMARY KEY declared by
`_create_tables`) and the `data_updates` table (symbol keyed, so an
association list). -/
structure DBState where
  stock_data : List Row
  stockDataHasPK : Bool
  data_updates : List (String × Int)
deriving DecidableEq, Repr

/-- `_create_tables` on a fresh database: both tables empty, `stock_data`
declared with `PRIMARY KEY (symbol, datetime, timeframe)`. -/
def initState : DBState :=
  { stock_data := [], stockDataHasPK := true, data_updates := [] }

/-- `insert_stock_data(df)`: `df.to_sql('stock_data', conn, if_exists='replace',
index=False)`.  pandas `if_exists='replace'` drops the existing table and
recreates it from the frame's own schema, so the new table holds exactly the
frame's rows and the PRIMARY KEY constraint from `_create_tables` is not
carried over (pandas `to_sql` creates no constraints). -/
def insert_stock_data (df : List Row) (st : DBState) : DBState :=
  { st with stock_data := df, stockDataHasPK := false }

/-- `ORDER BY datetime DESC` as a Bool comparator for `mergeSort`. -/
def datetimeDesc (a b : Row) : Bool := decide (b.datetime ≤ a.datetime)

/-- `get_stock_data(symbol, timeframe, limit)`: `SELECT * FROM stock_data WHERE
symbol = ? AND timeframe = ? ORDER BY datetime DESC` with ` LIMIT {limit}`
appended only under Python truthiness `if limit:` — so `limit=None` and
`limit=0` both leave the query uncapped. -/
def get_stock_data (symbol : String) (timeframe : String) (limit : Option Nat)
    (st : DBState) : List Row :=
  let rows := (st.stock_data.filter
    (fun r => r.symbol == symbol && r.timeframe == timeframe)).mergeSort datetimeDesc
  match limit with
  | none => rows
  | some n => if n = 0 then rows else rows.take n

/-- The correlated subquery `SELECT MAX(s2.datetime) FROM stock_data s2 WHERE
s2.symbol = s1.symbol AND s2.timeframe = s1.timeframe`. -/
def maxDatetime (rows : List Row) (symbol timeframe : String) : Option String :=
  ((rows.filter (fun r => r.symbol == symbol && r.timeframe == timeframe)).map
    (fun r => r.datetime)).max?

/-- `ORDER BY s1.symbol` comparator. -/
def symbolAsc (a b : Row) : Bool := decide (a.symbol ≤ b.symbol)

/-- `get_all_latest_data(timeframe)`: for each symbol, its row(s) at the
maximal datetime for that symbol and timeframe, ordered by symbol. -/
def get_all_latest_data (timeframe : String) (st : DBState) : List Row :=
  (st.stock_data.filter (fun r => r.timeframe == timeframe &&
    maxDatetime st.stock_data r.symbol timeframe == some r.datetime)).mergeSort symbolAsc

/-- `update_last_fetch_time(symbol)`: `INSERT OR REPLACE INTO data_updates
(symbol, last_update) VALUES (?, CURRENT_TIMESTAMP)` — `symbol` is the primary
key, so the old marker (if any) is replaced. -/
def update_last_fetch_time (symbol : String) (now : Int) (st : DBState) : DBState :=
  { st with data_updates :=
      (symbol, now) :: st.data_updates.filter (fun p => p.1 != symbol) }

/-- Marker lookup in the `data_updates` association list. -/
def lookupUpdate (updates : List (String × Int)) (symbol : String) : Option Int :=
  (updates.find? (fun p => p.1 == symbol)).map (fun p => p.2)

/-- The per-symbol query of `get_symbols_needing_update`: the LEFT JOIN row
survives the WHERE clause iff the symbol has no marker (`d.last_update IS
NULL`) or its marker is older than the threshold
(`datetime(d.last_update) < datetime('now', '-h hours')`). -/
def needsUpdate (updates : List (String × Int)) (hoursThreshold : Int) (now : Int)
    (symbol : String) : Bool :=
  match lookupUpdate updates symbol with
  | none => true
  | some t => decide (t < now - hoursThreshold * 3600)

/-- `get_symbols_needing_update(hours_threshold)`: iterates `WATCHLIST` in
order, keeping each symbol whose per-symbol query returns a row. -/
def get_symbols_needing_update (hoursThreshold : Int) (now : Int) (st : DBState) :
    List String :=
  WATCHLIST.filter (needsUpdate st.data_updates hoursThreshold now)

/-! ## src/data_collector.py — indicator engine

`calculate_indicators` sorts by datetime, then assigns the derived columns.
The `ta` library computes RSI as Wilder's smoothing: price differences split
into up/down moves (the leading `diff` NaN falls to `0.0` through
`diff.where(diff > 0, 0.0)`), each smoothed by
`ewm(alpha=1/window, min_periods=window, adjust=False).mean()`, with
`RSI = 100 - 100 / (1 + up/down)` and `RSI = 100` where the smoothed down
move is zero.  `min_periods` makes the first `window - 1` outputs NaN.
SMA is `rolling(window).mean()`, NaN before index `window - 1`.  pandas
`pct_change(n)` is NaN for the first `n` rows.  Division by zero cannot occur
for positive closes; on `ℚ` it would yield `0` where pandas yields `inf`. -/

/-- Comparison of an optional (possibly-NaN) column value with a threshold:
pandas `NaN < y` is `False`. -/
def optLt (x : Option ℚ) (y : ℚ) : Bool :=
  match x with
  | none => false
  | some v => decide (v < y)

/-- `close.pct_change(n) * 100` at row `i` (NaN for `i < n`). -/
def pctChangeAt (closes : List ℚ) (n i : Nat) : Option ℚ :=
  if n ≤ i then
    let c := closes.getD i 0
    let p := closes.getD (i - n) 0
    some ((c - p) / p * 100)
  else none

/-- `rolling(w).mean()` at row `i` (NaN for `i + 1 < w`). -/
def smaAt (closes : List ℚ) (w i : Nat) : Option ℚ :=
  if w ≤ i + 1 then
    some ((((closes.drop (i + 1 - w)).take w).foldl (fun a b => a + b) 0) / (w : ℚ))
  else none

/-- Upward price moves: `diff.where(diff > 0, 0.0)` with the leading NaN
replaced by `0`. -/
def upMoves : List ℚ → List ℚ
  | [] => []
  | c :: cs => 0 :: List.zipWith (fun nxt prev => max (nxt - prev) 0) cs (c :: cs)

/-- Downward price moves: `-diff.where(diff < 0, -0.0)` with the leading NaN
replaced by `0`. -/
def downMoves : List ℚ → List ℚ
  | [] => []
  | c :: cs => 0 :: List.zipWith (fun nxt prev => max (prev - nxt) 0) cs (c :: cs)

/-- Tail of `ewm(alpha=a, adjust=False).mean()`: `y[t] = (1-a)*y[t-1] + a*x[t]`. -/
def ewmGo (a acc : ℚ) : List ℚ → List ℚ
  | [] => [acc]
  | x :: xs => acc :: ewmGo a ((1 - a) * acc + a * x) xs

/-- `ewm(alpha=a, adjust=False).mean()` over a whole series, seeded at the
first element. -/
def ewmList (a : ℚ) : List ℚ → List ℚ
  | [] => []
  | x :: xs => ewmGo a x xs

/-- `ta.momentum.RSIIndicator(close, window=w).rsi()` at row `i`:
NaN before index `w - 1` (from `min_periods=w`), otherwise Wilder's RSI. -/
def rsiAt (closes : List ℚ) (w i : Nat) : Option ℚ :=
  if w ≤ i + 1 then
    let up := (ewmList (1 / (w : ℚ)) (upMoves closes)).getD i 0
    let dn := (ewmList (1 / (w : ℚ)) (downMoves closes)).getD i 0
    if dn = 0 then some 100 else some (100 - 100 / (1 + up / dn))
  else none

/-- `df.sort_values('datetime')` comparator. -/
def datetimeAsc (a b : Row) : Bool := decide (a.datetime ≤ b.datetime)

/-- Column assignment for row `i` of the sorted frame, including
`df['is_oversold'] = ((df['rsi'] < OVERSOLD_THRESHOLD) &
(df['pct_change_10d'] < -MIN_DECLINE_PERCENT)).astype(int)` (the int cast kept
as the boolean it encodes). -/
def enrichRow (closes : List ℚ) (r : Row) (i : Nat) : Row :=
  let rsi := rsiAt closes RSI_PERIOD i
  let sma := smaAt closes SMA_PERIOD i
  let p5 := pctChangeAt closes 5 i
  let p10 := pctChangeAt closes DECLINE_LOOKBACK_DAYS i
  { r with rsi := rsi, sma_20 := sma, pct_change_5d := p5, pct_change_10d := p10,
           is_oversold := some (optLt rsi OVERSOLD_THRESHOLD &&
                                optLt p10 (-MIN_DECLINE_PERCENT)) }

/-- `calculate_indicators(df)`: returns `df` untouched when
`df.empty or len(df) < max(RSI_PERIOD, SMA_PERIOD)`; otherwise sorts by
datetime and attaches the derived columns row by row. -/
def calculate_indicators (df : List Row) : List Row :=
  if df.isEmpty || df.length < max RSI_PERIOD SMA_PERIOD then df
  else
    let sorted := df.mergeSort datetimeAsc
    let closes := sorted.map (fun r => r.close)
    (List.range sorted.length).map (fun i => enrichRow closes (sorted.getD i default) i)

/-! ## src/data_collector.py — market-data client and orchestrator -/

/-- One object of the Polygon `results` array: `t` (epoch ms), `o`, `h`, `l`,
`c`, `v`. -/
structure PolygonResult where
  t : Int
  o : ℚ
  h : ℚ
  l : ℚ
  c : ℚ
  v : Int
deriving DecidableEq, Repr

/-- Outcome of one `requests.get` call: a received HTTP 200 response (whose
JSON body may lack the `results` field, modelled by `none`), a received
non-200 response, or an exception raised by the call itself (transport-level
failure). -/
inductive HttpOutcome where
  | success (body : Option (List PolygonResult))
  | httpError (status : Nat)
  | transportError
deriving DecidableEq, Repr

/-- `self.rate_limit_delay = 12` seconds. -/
def rate_limit_delay : Nat := 12

/-- `_make_request`: returns the parsed payload (`None` on non-200 status or
exception) paired with the seconds slept.  `time.sleep(self.rate_limit_delay)`
sits between `requests.get` and the status check, inside the `try`, so it runs
whenever a response was received (any status) but is skipped when the call
raises and control jumps to the `except` block. -/
def make_request (outcome : HttpOutcome) : Option (Option (List PolygonResult)) × Nat :=
  match outcome with
  | .success body => (some body, rate_limit_delay)
  | .httpError _ => (none, rate_limit_delay)
  | .transportError => (none, 0)

/-- Total seconds slept across a sequence of consecutive calls. -/
def totalDelay (outcomes : List HttpOutcome) : Nat :=
  (outcomes.map (fun o => (make_request o).2)).sum

/-- The `df['datetime'] = pd.to_datetime(df['t'], unit='ms')` +
`strftime('%Y-%m-%d %H:%M:%S')` step, abstracted to an injective rendering of
the epoch timestamp. -/
def fmtTimestamp (t : Int) : String := toString t

/-- `fetch_daily_data(symbol)`: `None` when the request failed or the JSON has
no `results` field (`if not data or 'results' not in data`), `None` when the
results frame is empty (`if df.empty`), otherwise the normalized bars tagged
with `symbol` and `timeframe='daily'`, derived columns absent. -/
def fetch_daily_data (outcome : HttpOutcome) (symbol : String) : Option (List Row) :=
  match (make_request outcome).1 with
  | none => none
  | some none => none
  | some (some results) =>
    if results.isEmpty then none
    else some (results.map (fun r =>
      { symbol := symbol, datetime := fmtTimestamp r.t, timeframe := "daily",
        open_ := r.o, high := r.h, low := r.l, close := r.c, volume := r.v }))

/-- `collect_data_for_symbol(symbol)`: fetch, compute indicators, store, mark
updated; `False` with no state change when the fetch yields nothing.  The
storage calls are modelled as always succeeding (the `except` branch of the
store step is unreachable in the model). -/
def collect_data_for_symbol (oracle : String → HttpOutcome) (now : Int)
    (symbol : String) (st : DBState) : Bool × DBState :=
  match fetch_daily_data (oracle symbol) symbol with
  | none => (false, st)
  | some df =>
    if df.isEmpty then (false, st)
    else
      let enriched := calculate_indicators df
      let st1 := insert_stock_data enriched st
      let st2 := update_last_fetch_time symbol now st1
      (true, st2)

/-- `collect_all_data(symbols)`: sequentially collects each symbol, recording
a per-symbol success flag. -/
def collect_all_data (oracle : String → HttpOutcome) (now : Int) :
    List String → DBState → List (String × Bool) × DBState
  | [], st => ([], st)
  | s :: rest, st =>
    let r1 := collect_data_for_symbol oracle now s st
    let r2 := collect_all_data oracle now rest r1.2
    ((s, r1.1) :: r2.1, r2.2)

/-! ## Concrete fixtures used to instantiate the theorems -/

/-- A raw daily bar as `fetch_daily_data` produces it. -/
def sampleBar : Row :=
  { symbol := "AAPL", datetime := "2024-01-02 00:00:00", timeframe := "daily",
    open_ := 10, high := 11, low := 9, close := 10, volume := 100 }

/-- A second raw bar for the same symbol, one day later. -/
def sampleBar2 : Row :=
  { symbol := "AAPL", datetime := "2024-01-03 00:00:00", timeframe := "daily",
    open_ := 10, high := 12, low := 9, close := 11, volume := 150 }

/-- A raw bar for a different symbol. -/
def msftBar : Row :=
  { symbol := "MSFT", datetime := "2024-01-02 00:00:00", timeframe := "daily",
    open_ := 20, high := 21, low := 19, close := 20, volume := 50 }

/-- Same `(symbol, datetime, timeframe)` key as `sampleBar`, different payload. -/
def dupBar : Row := { sampleBar with volume := 999 }

/-- A database state holding prior data for MSFT. -/
def priorState : DBState :=
  { stock_data := [msftBar], stockDataHasPK := false, data_updates := [("MSFT", 5)] }

/-- Twenty raw bars, enough to clear the indicator-engine length guard. -/
def rawBars : List Row :=
  (List.range 20).map (fun i =>
    { symbol := "TEST", datetime := "2024-01-" ++ toString (10 + i) ++ " 00:00:00",
      timeframe := "daily", open_ := 10, high := 11, low := 9,
      close := (10 : ℚ) + i, volume := 100 })

/-- A market-data oracle whose every response is HTTP 200 with an empty
`results` array. -/
def emptyOracle : String → HttpOutcome := fun _ => HttpOutcome.success (some [])

/-- A market-data oracle returning one bar for every symbol. -/
def oneBarOracle : String → HttpOutcome := fun _ =>
  HttpOutcome.success (some [{ t := 1, o := 10, h := 11, l := 9, c := 10, v := 100 }])

/-! ## Helper lemmas -/

/-- `get_stock_data` with `limit=None` unfolded. -/
theorem get_stock_data_none (symbol timeframe : String) (st : DBState) :
    get_stock_data symbol timeframe none st =
    (st.stock_data.filter
      (fun r => r.symbol == symbol && r.timeframe == timeframe)).mergeSort datetimeDesc := rfl

/-- Every row returned by `get_stock_data` is a row of the table. -/
theorem mem_get_stock_data {symbol timeframe : String} {limit : Option Nat}
    {st : DBState} {x : Row} (hx : x ∈ get_stock_data symbol timeframe limit st) :
    x ∈ st.stock_data := by
  cases limit with
  | none =>
    rw [get_stock_data_none] at hx
    exact List.mem_of_mem_filter (List.mem_mergeSort.mp hx)
  | some n =>
    simp only [get_stock_data] at hx
    split at hx
    · exact List.mem_of_mem_filter (List.mem_mergeSort.mp hx)
    · exact List.mem_of_mem_filter (List.mem_mergeSort.mp (List.take_subset _ _ hx))

/-- Every row returned by `get_all_latest_data` is a row of the table. -/
theorem mem_get_all_latest_data {timeframe : String} {st : DBState} {x : Row}
    (hx : x ∈ get_all_latest_data timeframe st) : x ∈ st.stock_data := by
  unfold get_all_latest_data at hx
  exact List.mem_of_mem_filter (List.mem_mergeSort.mp hx)

/-- `optLt` decided positively names the present value below the threshold. -/
theorem optLt_eq_true_iff (x : Option ℚ) (y : ℚ) :
    optLt x y = true ↔ ∃ v, x = some v ∧ v < y := by
  cases x <;> simp [optLt]

/-! ## Claim theorems -/

/-- C1: `insert_stock_data` replaces the entire `stock_data` table with the
given frame: afterwards the table is exactly the written batch, any previously
stored row whose symbol is absent from the batch is gone, and both read
queries only ever return written rows. -/
theorem insert_stock_data_replaces_table (st : DBState) (df : List Row) (r : Row)
    (_hr : r ∈ st.stock_data) (hsym : ∀ r2 ∈ df, r2.symbol ≠ r.symbol) :
    (insert_stock_data df st).stock_data = df ∧
    r ∉ (insert_stock_data df st).stock_data ∧
    (∀ symbol timeframe limit,
      ∀ x ∈ get_stock_data symbol timeframe limit (insert_stock_data df st), x ∈ df) ∧
    (∀ timeframe,
      ∀ x ∈ get_all_latest_data timeframe (insert_stock_data df st), x ∈ df) := by
  refine ⟨rfl, ?_, ?_, ?_⟩
  · intro hmem
    exact hsym r hmem rfl
  · intro symbol timeframe limit x hx
    exact mem_get_stock_data hx
  · intro timeframe x hx
    exact mem_get_all_latest_data hx

/-- C1 witness: inserting an AAPL batch over a table holding an MSFT row. -/
theorem insert_stock_data_replaces_table_witness :
    msftBar ∈ priorState.stock_data ∧
    (∀ r2 ∈ [sampleBar], r2.symbol ≠ msftBar.symbol) ∧
    ((insert_stock_data [sampleBar] priorState).stock_data = [sampleBar] ∧
     msftBar ∉ (insert_stock_data [sampleBar] priorState).stock_data ∧
     (∀ symbol timeframe limit,
       ∀ x ∈ get_stock_data symbol timeframe limit (insert_stock_data [sampleBar] priorState),
         x ∈ [sampleBar]) ∧
     (∀ timeframe,
       ∀ x ∈ get_all_latest_data timeframe (insert_stock_data [sampleBar] priorState),
         x ∈ [sampleBar])) :=
  ⟨by decide, by decide,
   insert_stock_data_replaces_table priorState [sampleBar] msftBar (by decide) (by decide)⟩

/-- C10: Python truthiness in `if limit:` means `limit=0` appends no LIMIT
clause, so `get_stock_data` with limit 0 returns the same rows as with no
limit at all. -/
theorem get_stock_data_limit_zero (symbol timeframe : String) (st : DBState) :
    get_stock_data symbol timeframe (some 0) st =
    get_stock_data symbol timeframe none st := rfl

/-- C4: an input shorter than `max(RSI_PERIOD, SMA_PERIOD)` (the empty frame
included) is returned by `calculate_indicators` unchanged — the guard fires
before any derived column is computed, so no exception path is reachable. -/
theorem calculate_indicators_short_input (df : List Row)
    (h : df.length < max RSI_PERIOD SMA_PERIOD) :
    calculate_indicators df = df := by
  unfold calculate_indicators
  simp [h]

/-- C4 witness: a single bar is far below the 20-row threshold. -/
theorem calculate_indicators_short_input_witness :
    [sampleBar].length < max RSI_PERIOD SMA_PERIOD ∧
    calculate_indicators [sampleBar] = [sampleBar] :=
  ⟨by decide, calculate_indicators_short_input [sampleBar] (by decide)⟩

/-- C9: the first `insert_stock_data` recreates `stock_data` without the
`(symbol, datetime, timeframe)` PRIMARY KEY, so a later write holding two
bars with an identical key triple succeeds, both rows land in the table, and
both are returned by `get_stock_data`. -/
theorem insert_stock_data_drops_primary_key (st : DBState) (df : List Row) (b1 b2 : Row)
    (hsym : b2.symbol = b1.symbol) (_hdt : b2.datetime = b1.datetime)
    (htf : b2.timeframe = b1.timeframe) :
    initState.stockDataHasPK = true ∧
    (insert_stock_data df st).stockDataHasPK = false ∧
    (insert_stock_data [b1, b2] (insert_stock_data df st)).stock_data = [b1, b2] ∧
    b1 ∈ get_stock_data b1.symbol b1.timeframe none
      (insert_stock_data [b1, b2] (insert_stock_data df st)) ∧
    b2 ∈ get_stock_data b1.symbol b1.timeframe none
      (insert_stock_data [b1, b2] (insert_stock_data df st)) ∧
    (get_stock_data b1.symbol b1.timeframe none
      (insert_stock_data [b1, b2] (insert_stock_data df st))).length = 2 := by
  have hfilter : (insert_stock_data [b1, b2] (insert_stock_data df st)).stock_data.filter
      (fun r => r.symbol == b1.symbol && r.timeframe == b1.timeframe) = [b1, b2] := by
    simp [insert_stock_data, List.filter, hsym, htf]
  have hget : get_stock_data b1.symbol b1.timeframe none
      (insert_stock_data [b1, b2] (insert_stock_data df st)) =
      [b1, b2].mergeSort datetimeDesc := by
    rw [get_stock_data_none, hfilter]
  refine ⟨rfl, rfl, rfl, ?_, ?_, ?_⟩
  · rw [hget, List.mem_mergeSort]; simp
  · rw [hget, List.mem_mergeSort]; simp
  · rw [hget, List.length_mergeSort]
    rfl

/-- C9 witness: `dupBar` shares `sampleBar`'s key triple; after a first write
both land in the table and are queryable. -/
theorem insert_stock_data_drops_primary_key_witness :
    dupBar.symbol = sampleBar.symbol ∧ dupBar.datetime = sampleBar.datetime ∧
    dupBar.timeframe = sampleBar.timeframe ∧
    (initState.stockDataHasPK = true ∧
     (insert_stock_data [msftBar] initState).stockDataHasPK = false ∧
     (insert_stock_data [sampleBar, dupBar] (insert_stock_data [msftBar] initState)).stock_data
       = [sampleBar, dupBar] ∧
     sampleBar ∈ get_stock_data sampleBar.symbol sampleBar.timeframe none
       (insert_stock_data [sampleBar, dupBar] (insert_stock_data [msftBar] initState)) ∧
     dupBar ∈ get_stock_data sampleBar.symbol sampleBar.timeframe none
       (insert_stock_data [sampleBar, dupBar] (insert_stock_data [msftBar] initState)) ∧
     (get_stock_data sampleBar.symbol sampleBar.timeframe none
       (insert_stock_data [sampleBar, dupBar] (insert_stock_data [msftBar] initState))).length
       = 2) :=
  ⟨by decide, by decide, by decide,
   insert_stock_data_drops_primary_key initState [msftBar] sampleBar dupBar
     (by decide) (by decide) (by decide)⟩

/-- C8 counterexample: a transport-level failure (`requests.get` raising)
jumps to the `except` block before `time.sleep` is reached, so that call
sleeps 0 seconds and one call's wall-clock delay floor `1 × 12` fails. -/
theorem make_request_transport_failure_skips_delay :
    (make_request HttpOutcome.transportError).2 = 0 ∧
    totalDelay [HttpOutcome.transportError] = 0 ∧
    ¬ rate_limit_delay * 1 ≤ totalDelay [HttpOutcome.transportError] := by
  refine ⟨rfl, rfl, ?_⟩
  decide

/-- Sum bound for the settling delay over consecutive calls. -/
theorem totalDelay_lower_bound (outcomes : List HttpOutcome)
    (h : ∀ o ∈ outcomes, (make_request o).2 = rate_limit_delay) :
    rate_limit_delay * outcomes.length ≤ totalDelay outcomes := by
  induction outcomes with
  | nil => simp [totalDelay]
  | cons o rest ih =>
    have h1 : (make_request o).2 = rate_limit_delay := h o (List.mem_cons_self o rest)
    have h2 := ih (fun x hx => h x (List.mem_cons_of_mem o hx))
    simp only [totalDelay, List.map_cons, List.sum_cons, List.length_cons] at h2 ⊢
    rw [h1]
    simp only [rate_limit_delay] at h2 ⊢
    omega

/-- C8 amended: the 12-second settling delay is applied after every call that
receives an HTTP response — success or non-success status alike — but is
skipped when the call raises a transport-level exception; hence N consecutive
calls none of which raises sleep at least N × 12 seconds in total. -/
theorem make_request_delay_unless_raise (outcomes : List HttpOutcome)
    (h : ∀ o ∈ outcomes, o ≠ HttpOutcome.transportError) :
    (∀ o ∈ outcomes, (make_request o).2 = rate_limit_delay) ∧
    rate_limit_delay * outcomes.length ≤ totalDelay outcomes := by
  have hdelay : ∀ o ∈ outcomes, (make_request o).2 = rate_limit_delay := by
    intro o ho
    cases o with
    | success body => rfl
    | httpError status => rfl
    | transportError => exact absurd rfl (h _ ho)
  exact ⟨hdelay, totalDelay_lower_bound outcomes hdelay⟩

/-- C8 amended witness: a 200 response and a 404 response both sleep, so the
two calls sleep at least 24 seconds. -/
theorem make_request_delay_unless_raise_witness :
    (∀ o ∈ [HttpOutcome.success none, HttpOutcome.httpError 404],
      o ≠ HttpOutcome.transportError) ∧
    ((∀ o ∈ [HttpOutcome.success none, HttpOutcome.httpError 404],
       (make_request o).2 = rate_limit_delay) ∧
     rate_limit_delay * ([HttpOutcome.success none, HttpOutcome.httpError 404] : List HttpOutcome).length ≤
       totalDelay [HttpOutcome.success none, HttpOutcome.httpError 404]) :=
  ⟨by decide, make_request_delay_unless_raise _ (by decide)⟩

/-- C5: an HTTP 200 response whose `results` array is empty, or whose JSON
lacks the `results` field, makes `collect_data_for_symbol` return failure with
the whole database state — both `stock_data` and `data_updates` — exactly as
it was. -/
theorem collect_data_for_symbol_empty_results (oracle : String → HttpOutcome)
    (now : Int) (symbol : String) (st : DBState)
    (h : oracle symbol = HttpOutcome.success (some []) ∨
         oracle symbol = HttpOutcome.success none) :
    collect_data_for_symbol oracle now symbol st = (false, st) ∧
    (collect_data_for_symbol oracle now symbol st).2.stock_data = st.stock_data ∧
    (collect_data_for_symbol oracle now symbol st).2.data_updates = st.data_updates := by
  have hfetch : fetch_daily_data (oracle symbol) symbol = none := by
    rcases h with h | h <;> rw [h] <;> rfl
  unfold collect_data_for_symbol
  rw [hfetch]
  exact ⟨rfl, rfl, rfl⟩

/-- C5 witness: the empty-results oracle for "ZZZ" over a state with prior
MSFT data leaves the state untouched. -/
theorem collect_data_for_symbol_empty_results_witness :
    (emptyOracle "ZZZ" = HttpOutcome.success (some []) ∨
     emptyOracle "ZZZ" = HttpOutcome.success none) ∧
    (collect_data_for_symbol emptyOracle 0 "ZZZ" priorState = (false, priorState) ∧
     (collect_data_for_symbol emptyOracle 0 "ZZZ" priorState).2.stock_data =
       priorState.stock_data ∧
     (collect_data_for_symbol emptyOracle 0 "ZZZ" priorState).2.data_updates =
       priorState.data_updates) :=
  ⟨Or.inl rfl, collect_data_for_symbol_empty_results emptyOracle 0 "ZZZ" priorState (Or.inl rfl)⟩

/-- After `update_last_fetch_time`, the symbol's marker reads the write time. -/
theorem lookupUpdate_update_self (symbol : String) (now : Int) (st : DBState) :
    lookupUpdate (update_last_fetch_time symbol now st).data_updates symbol = some now := by
  unfold lookupUpdate update_last_fetch_time
  rw [List.find?_cons_of_pos]
  · rfl
  · simp

/-- The WHERE clause of the per-symbol staleness query, as a proposition. -/
theorem needsUpdate_eq_true_iff (updates : List (String × Int))
    (hoursThreshold now : Int) (symbol : String) :
    needsUpdate updates hoursThreshold now symbol = true ↔
      (lookupUpdate updates symbol = none ∨
       ∃ t, lookupUpdate updates symbol = some t ∧ t < now - hoursThreshold * 3600) := by
  unfold needsUpdate
  cases hl : lookupUpdate updates symbol with
  | none => simp
  | some t => simp

/-- C6: `get_symbols_needing_update` returns exactly the watchlist symbols
with no staleness marker or with a marker older than the threshold; a symbol
with no marker is returned, and once `update_last_fetch_time` stamps a symbol
it stays excluded until the threshold has elapsed. -/
theorem get_symbols_needing_update_spec (hoursThreshold now : Int) (st : DBState) :
    (∀ symbol, symbol ∈ get_symbols_needing_update hoursThreshold now st ↔
      symbol ∈ WATCHLIST ∧
        (lookupUpdate st.data_updates symbol = none ∨
         ∃ t, lookupUpdate st.data_updates symbol = some t ∧
           t < now - hoursThreshold * 3600)) ∧
    (∀ symbol, symbol ∈ WATCHLIST → lookupUpdate st.data_updates symbol = none →
      symbol ∈ get_symbols_needing_update hoursThreshold now st) ∧
    (∀ symbol queryTime, queryTime - now ≤ hoursThreshold * 3600 →
      symbol ∉ get_symbols_needing_update hoursThreshold queryTime
        (update_last_fetch_time symbol now st)) := by
  have hmem : ∀ (hT nowT : Int) (stT : DBState) (symbol : String),
      symbol ∈ get_symbols_needing_update hT nowT stT ↔
      symbol ∈ WATCHLIST ∧ needsUpdate stT.data_updates hT nowT symbol = true := by
    intro hT nowT stT symbol
    unfold get_symbols_needing_update
    exact List.mem_filter
  refine ⟨?_, ?_, ?_⟩
  · intro symbol
    rw [hmem, needsUpdate_eq_true_iff]
  · intro symbol hw hnone
    rw [hmem, needsUpdate_eq_true_iff]
    exact ⟨hw, Or.inl hnone⟩
  · intro symbol queryTime hq hmem2
    rw [hmem, needsUpdate_eq_true_iff, lookupUpdate_update_self] at hmem2
    rcases hmem2.2 with h | ⟨t, ht, hlt⟩
    · exact Option.noConfusion h
    · rw [Option.some_inj] at ht
      omega

/-- C6 witness: on a fresh database "AAPL" needs updating; right after its
marker is stamped at time 0 it is excluded at time 1000 with a 1-hour
threshold. -/
theorem get_symbols_needing_update_spec_witness :
    "AAPL" ∈ get_symbols_needing_update 1 0 initState ∧
    "AAPL" ∉ get_symbols_needing_update 1 1000 (update_last_fetch_time "AAPL" 0 initState) :=
  ⟨(get_symbols_needing_update_spec 1 0 initState).2.1 "AAPL" (by decide) rfl,
   (get_symbols_needing_update_spec 1 0 initState).2.2 "AAPL" 1000 (by decide)⟩

/-- C7: writing a per-symbol batch of daily bars with pairwise-distinct
datetimes and immediately reading it back with `get_stock_data` returns
exactly the written bars — a permutation, duplicate-free, ordered by datetime
descending (newest first). -/
theorem insert_then_get_stock_data_roundtrip (st : DBState) (df : List Row)
    (symbol : String)
    (hsym : ∀ r ∈ df, r.symbol = symbol ∧ r.timeframe = "daily")
    (hkeys : (df.map (fun r => r.datetime)).Nodup) :
    (get_stock_data symbol "daily" none (insert_stock_data df st)).Perm df ∧
    (get_stock_data symbol "daily" none (insert_stock_data df st)).Nodup ∧
    (get_stock_data symbol "daily" none (insert_stock_data df st)).Pairwise
      (fun a b => b.datetime ≤ a.datetime) := by
  have hfilter : (insert_stock_data df st).stock_data.filter
      (fun r => r.symbol == symbol && r.timeframe == "daily") = df := by
    apply List.filter_eq_self.mpr
    intro r hr
    obtain ⟨h1, h2⟩ := hsym r hr
    simp [h1, h2]
  have hget : get_stock_data symbol "daily" none (insert_stock_data df st) =
      df.mergeSort datetimeDesc := by
    rw [get_stock_data_none, hfilter]
  have hperm : (df.mergeSort datetimeDesc).Perm df := List.mergeSort_perm df _
  have hnodup : df.Nodup := List.Nodup.of_map _ hkeys
  have hsorted : (df.mergeSort datetimeDesc).Pairwise
      (fun a b => b.datetime ≤ a.datetime) := by
    have h1 : (df.mergeSort datetimeDesc).Pairwise (fun a b => datetimeDesc a b = true) :=
      List.sorted_mergeSort
        (by intro a b c hab hbc
            simp only [datetimeDesc, decide_eq_true_eq] at hab hbc ⊢
            exact le_trans hbc hab)
        (by intro a b
            simp only [datetimeDesc, Bool.or_eq_true, decide_eq_true_eq]
            exact le_total b.datetime a.datetime)
        df
    exact h1.imp (fun hab => by simpa [datetimeDesc] using hab)
  rw [hget]
  exact ⟨hperm, hperm.nodup_iff.mpr hnodup, hsorted⟩

/-- C7 witness: a two-bar AAPL batch round-trips through the store. -/
theorem insert_then_get_stock_data_roundtrip_witness :
    (∀ r ∈ [sampleBar, sampleBar2], r.symbol = "AAPL" ∧ r.timeframe = "daily") ∧
    ([sampleBar, sampleBar2].map (fun r => r.datetime)).Nodup ∧
    ((get_stock_data "AAPL" "daily" none
        (insert_stock_data [sampleBar, sampleBar2] priorState)).Perm
        [sampleBar, sampleBar2] ∧
     (get_stock_data "AAPL" "daily" none
        (insert_stock_data [sampleBar, sampleBar2] priorState)).Nodup ∧
     (get_stock_data "AAPL" "daily" none
        (insert_stock_data [sampleBar, sampleBar2] priorState)).Pairwise
        (fun a b => b.datetime ≤ a.datetime)) :=
  ⟨by decide, by decide,
   insert_then_get_stock_data_roundtrip priorState [sampleBar, sampleBar2] "AAPL"
     (by decide) (by decide)⟩

/-- C3: in the output of `calculate_indicators` over raw bars, `is_oversold`
is true exactly when `rsi` is present and below `OVERSOLD_THRESHOLD` and
`pct_change_10d` is present and below `-MIN_DECLINE_PERCENT`; whenever either
value is absent, `is_oversold` is false (computed branch, where NaN
comparisons yield False) or absent (short-input branch, which returns the raw
bars untouched). -/
theorem calculate_indicators_is_oversold_iff (df : List Row)
    (hraw : ∀ r ∈ df, r.rsi = none ∧ r.pct_change_10d = none ∧ r.is_oversold = none) :
    ∀ r ∈ calculate_indicators df,
      (r.is_oversold = some true ↔
        ((∃ x, r.rsi = some x ∧ x < OVERSOLD_THRESHOLD) ∧
         (∃ y, r.pct_change_10d = some y ∧ y < -MIN_DECLINE_PERCENT))) ∧
      ((r.rsi = none ∨ r.pct_change_10d = none) →
        (r.is_oversold = some false ∨ r.is_oversold = none)) := by
  intro r hr
  unfold calculate_indicators at hr
  split at hr
  · obtain ⟨h1, h2, h3⟩ := hraw r hr
    constructor
    · rw [h3, h1]
      simp
    · intro _
      exact Or.inr h3
  · obtain ⟨i, _, rfl⟩ := List.mem_map.mp hr
    constructor
    · simp only [enrichRow, Option.some.injEq, Bool.and_eq_true, optLt_eq_true_iff]
    · intro hnone
      left
      rcases hnone with h | h <;>
        simp only [enrichRow] at h ⊢ <;>
        rw [h] <;>
        simp [optLt]

/-- C3 witness: twenty raw bars clear the length guard and get classified. -/
theorem calculate_indicators_is_oversold_iff_witness :
    (∀ r ∈ rawBars, r.rsi = none ∧ r.pct_change_10d = none ∧ r.is_oversold = none) ∧
    (∀ r ∈ calculate_indicators rawBars,
      (r.is_oversold = some true ↔
        ((∃ x, r.rsi = some x ∧ x < OVERSOLD_THRESHOLD) ∧
         (∃ y, r.pct_change_10d = some y ∧ y < -MIN_DECLINE_PERCENT))) ∧
      ((r.rsi = none ∨ r.pct_change_10d = none) →
        (r.is_oversold = some false ∨ r.is_oversold = none))) :=
  ⟨by decide, calculate_indicators_is_oversold_iff rawBars (by decide)⟩

/-- Bars built by `fetch_daily_data` all carry the requested symbol. -/
theorem fetch_daily_data_symbols (outcome : HttpOutcome) (symbol : String)
    (df : List Row) (h : fetch_daily_data outcome symbol = some df) :
    ∀ r ∈ df, r.symbol = symbol := by
  cases outcome with
  | transportError => simp [fetch_daily_data, make_request] at h
  | httpError status => simp [fetch_daily_data, make_request] at h
  | success body =>
    cases body with
    | none => simp [fetch_daily_data, make_request] at h
    | some results =>
      by_cases he : results = []
      · simp [fetch_daily_data, make_request, he] at h
      · simp only [fetch_daily_data, make_request, List.isEmpty_eq_true, he,
          if_false, Option.some_inj] at h
        intro r hr
        rw [← h] at hr
        obtain ⟨p, _, rfl⟩ := List.mem_map.mp hr
        rfl

/-- Every output row of `calculate_indicators` takes its symbol from some
input row. -/
theorem calculate_indicators_symbol_mem (df : List Row) (r : Row)
    (hr : r ∈ calculate_indicators df) : ∃ r0 ∈ df, r.symbol = r0.symbol := by
  unfold calculate_indicators at hr
  split at hr
  · exact ⟨r, hr, rfl⟩
  · obtain ⟨i, hi, rfl⟩ := List.mem_map.mp hr
    rw [List.mem_range, List.length_mergeSort] at hi
    refine ⟨(df.mergeSort datetimeAsc).getD i default, ?_, ?_⟩
    · have hlt : i < (df.mergeSort datetimeAsc).length := by
        rw [List.length_mergeSort]; exact hi
      rw [List.getD_eq_getElem _ _ hlt]
      exact List.mem_mergeSort.mp (List.getElem_mem hlt)
    · simp [enrichRow]

/-- Reduction: a fetch yielding no frame makes the collection a no-op. -/
theorem collect_data_for_symbol_eq_none (oracle : String → HttpOutcome) (now : Int)
    (symbol : String) (st : DBState)
    (hf : fetch_daily_data (oracle symbol) symbol = none) :
    collect_data_for_symbol oracle now symbol st = (false, st) := by
  unfold collect_data_for_symbol
  rw [hf]

/-- Reduction: a fetch yielding an empty frame makes the collection a no-op. -/
theorem collect_data_for_symbol_eq_empty (oracle : String → HttpOutcome) (now : Int)
    (symbol : String) (st : DBState)
    (hf : fetch_daily_data (oracle symbol) symbol = some []) :
    collect_data_for_symbol oracle now symbol st = (false, st) := by
  unfold collect_data_for_symbol
  rw [hf]
  rfl

/-- Reduction: a fetch yielding a non-empty frame stores the enriched bars and
stamps the marker. -/
theorem collect_data_for_symbol_eq_some (oracle : String → HttpOutcome) (now : Int)
    (symbol : String) (st : DBState) (df : List Row)
    (hf : fetch_daily_data (oracle symbol) symbol = some df) (hne : df ≠ []) :
    collect_data_for_symbol oracle now symbol st =
      (true, update_last_fetch_time symbol now
        (insert_stock_data (calculate_indicators df) st)) := by
  unfold collect_data_for_symbol
  rw [hf]
  simp [hne]

/-- A failed `collect_data_for_symbol` leaves the state untouched. -/
theorem collect_fail_preserves_state (oracle : String → HttpOutcome) (now : Int)
    (symbol : String) (st : DBState)
    (h : (collect_data_for_symbol oracle now symbol st).1 = false) :
    (collect_data_for_symbol oracle now symbol st).2 = st := by
  cases hf : fetch_daily_data (oracle symbol) symbol with
  | none => rw [collect_data_for_symbol_eq_none oracle now symbol st hf]
  | some df =>
    by_cases he : df = []
    · subst he
      rw [collect_data_for_symbol_eq_empty oracle now symbol st hf]
    · rw [collect_data_for_symbol_eq_some oracle now symbol st df hf he] at h
      simp at h

/-- A successful `collect_data_for_symbol` leaves the table holding only rows
tagged with that symbol. -/
theorem collect_success_stock_data (oracle : String → HttpOutcome) (now : Int)
    (symbol : String) (st : DBState)
    (h : (collect_data_for_symbol oracle now symbol st).1 = true) :
    ∀ r ∈ (collect_data_for_symbol oracle now symbol st).2.stock_data,
      r.symbol = symbol := by
  cases hf : fetch_daily_data (oracle symbol) symbol with
  | none =>
    rw [collect_data_for_symbol_eq_none oracle now symbol st hf] at h
    simp at h
  | some df =>
    by_cases he : df = []
    · subst he
      rw [collect_data_for_symbol_eq_empty oracle now symbol st hf] at h
      simp at h
    · rw [collect_data_for_symbol_eq_some oracle now symbol st df hf he]
      simp only [update_last_fetch_time, insert_stock_data]
      intro r hr
      obtain ⟨r0, hr0, hs⟩ := calculate_indicators_symbol_mem df r hr
      rw [hs]
      exact fetch_daily_data_symbols (oracle symbol) symbol df hf r0 hr0

/-- A batch in which every symbol fails leaves the state untouched. -/
theorem collect_all_data_all_fail (oracle : String → HttpOutcome) (now : Int)
    (symbols : List String) (st : DBState)
    (h : ∀ p ∈ (collect_all_data oracle now symbols st).1, p.2 = false) :
    (collect_all_data oracle now symbols st).2 = st := by
  induction symbols generalizing st with
  | nil => rfl
  | cons a rest ih =>
    simp only [collect_all_data] at h ⊢
    have hhead : (collect_data_for_symbol oracle now a st).1 = false :=
      h (a, (collect_data_for_symbol oracle now a st).1) (List.mem_cons_self _ _)
    have hrest := ih (collect_data_for_symbol oracle now a st).2
      (fun p hp => h p (List.mem_cons_of_mem _ hp))
    rw [hrest, collect_fail_preserves_state oracle now a st hhead]

/-- Unfolding equation for `collect_all_data` on a cons. -/
theorem collect_all_data_cons (oracle : String → HttpOutcome) (now : Int)
    (a : String) (rest : List String) (st : DBState) :
    collect_all_data oracle now (a :: rest) st =
      ((a, (collect_data_for_symbol oracle now a st).1) ::
        (collect_all_data oracle now rest (collect_data_for_symbol oracle now a st).2).1,
       (collect_all_data oracle now rest (collect_data_for_symbol oracle now a st).2).2) := rfl

/-- If any symbol of a batch succeeded, the batch's result list decomposes
around a last success `sLast` (everything after it failed) and every row left
in `stock_data` belongs to `sLast`. -/
theorem collect_all_data_last_success (oracle : String → HttpOutcome) (now : Int)
    (symbols : List String) (st : DBState)
    (hs : ∃ s, (s, true) ∈ (collect_all_data oracle now symbols st).1) :
    ∃ sLast pre post,
      (collect_all_data oracle now symbols st).1 = pre ++ (sLast, true) :: post ∧
      (∀ p ∈ post, p.2 = false) ∧
      ∀ r ∈ (collect_all_data oracle now symbols st).2.stock_data,
        r.symbol = sLast := by
  induction symbols generalizing st with
  | nil =>
    obtain ⟨s, hmem⟩ := hs
    simp [collect_all_data] at hmem
  | cons a rest ih =>
    by_cases hrest : ∃ s2, (s2, true) ∈
        (collect_all_data oracle now rest (collect_data_for_symbol oracle now a st).2).1
    · obtain ⟨sL, pre, post, heq, hpost, hrows⟩ :=
        ih (collect_data_for_symbol oracle now a st).2 hrest
      refine ⟨sL, (a, (collect_data_for_symbol oracle now a st).1) :: pre, post, ?_, hpost, ?_⟩
      · rw [collect_all_data_cons]
        show (a, (collect_data_for_symbol oracle now a st).1) ::
          (collect_all_data oracle now rest (collect_data_for_symbol oracle now a st).2).1 = _
        rw [heq]
        rfl
      · rw [collect_all_data_cons]
        exact hrows
    · push_neg at hrest
      obtain ⟨s, hmem⟩ := hs
      rw [collect_all_data_cons] at hmem
      have hallfail : ∀ p ∈ (collect_all_data oracle now rest
          (collect_data_for_symbol oracle now a st).2).1, p.2 = false := by
        intro p hp
        cases hpv : p.2 with
        | false => rfl
        | true =>
          exact absurd (show (p.1, true) ∈ (collect_all_data oracle now rest
            (collect_data_for_symbol oracle now a st).2).1 by
              rw [← hpv]; exact hp) (hrest p.1)
      have hok : (collect_data_for_symbol oracle now a st).1 = true := by
        rcases List.mem_cons.mp hmem with heq | hmem2
        · have := congrArg Prod.snd heq
          simpa using this.symm
        · have := hallfail (s, true) hmem2
          simp at this
      have hfinal : (collect_all_data oracle now rest
          (collect_data_for_symbol oracle now a st).2).2 =
          (collect_data_for_symbol oracle now a st).2 :=
        collect_all_data_all_fail oracle now rest _ hallfail
      refine ⟨a, [], (collect_all_data oracle now rest
          (collect_data_for_symbol oracle now a st).2).1, ?_, hallfail, ?_⟩
      · rw [collect_all_data_cons, hok]
        rfl
      · rw [collect_all_data_cons]
        show ∀ r ∈ (collect_all_data oracle now rest
          (collect_data_for_symbol oracle now a st).2).2.stock_data, r.symbol = a
        rw [hfinal]
        exact collect_success_stock_data oracle now a st hok

/-- C2: when more than one symbol of a `collect_all_data` run succeeds, each
success's whole-table replace clobbers the previous one, so at the end only
the bars of the last successfully collected symbol remain in `stock_data`,
and `get_all_latest_data` returns rows for at most that one symbol. -/
theorem collect_all_data_last_writer_wins (oracle : String → HttpOutcome) (now : Int)
    (symbols : List String) (st : DBState) (s1 s2 : String) (_hne : s1 ≠ s2)
    (h1 : (s1, true) ∈ (collect_all_data oracle now symbols st).1)
    (_h2 : (s2, true) ∈ (collect_all_data oracle now symbols st).1) :
    ∃ sLast pre post,
      (collect_all_data oracle now symbols st).1 = pre ++ (sLast, true) :: post ∧
      (∀ p ∈ post, p.2 = false) ∧
      (∀ r ∈ (collect_all_data oracle now symbols st).2.stock_data,
        r.symbol = sLast) ∧
      (∀ timeframe,
        ∀ r ∈ get_all_latest_data timeframe (collect_all_data oracle now symbols st).2,
          r.symbol = sLast) := by
  obtain ⟨sL, pre, post, heq, hpost, hrows⟩ :=
    collect_all_data_last_success oracle now symbols st ⟨s1, h1⟩
  exact ⟨sL, pre, post, heq, hpost, hrows,
    fun timeframe r hr => hrows r (mem_get_all_latest_data hr)⟩

/-- C2 witness: both AAPL and MSFT succeed against the one-bar oracle, and
the run decomposes around a last success owning every stored row. -/
theorem collect_all_data_last_writer_wins_witness :
    "AAPL" ≠ "MSFT" ∧
    ("AAPL", true) ∈ (collect_all_data oneBarOracle 0 ["AAPL", "MSFT"] initState).1 ∧
    ("MSFT", true) ∈ (collect_all_data oneBarOracle 0 ["AAPL", "MSFT"] initState).1 ∧
    (∃ sLast pre post,
      (collect_all_data oneBarOracle 0 ["AAPL", "MSFT"] initState).1 =
        pre ++ (sLast, true) :: post ∧
      (∀ p ∈ post, p.2 = false) ∧
      (∀ r ∈ (collect_all_data oneBarOracle 0 ["AAPL", "MSFT"] initState).2.stock_data,
        r.symbol = sLast) ∧
      (∀ timeframe,
        ∀ r ∈ get_all_latest_data timeframe
            (collect_all_data oneBarOracle 0 ["AAPL", "MSFT"] initState).2,
          r.symbol = sLast)) :=
  ⟨by decide, by decide, by decide,
   collect_all_data_last_writer_wins oneBarOracle 0 ["AAPL", "MSFT"] initState
     "AAPL" "MSFT" (by decide) (by decide) (by decide)⟩
